import Mathlib

/-!
Verification of the thirdweb SDK's contract feature-detection / extension
dispatch subsystem and related algorithms, shallowly embedded in Lean.

Part 1: the Solana `NFTCollection.supplyOf` edition-ledger bit-counting
algorithm (src/unnamed/part_000, lines 258-307).
-/

namespace NFTCollection

/-- Embeds `indexCap` from `supplyOf`:
`const indexCap = editionMarkerNumber === 0 ? 247 : 248;`. -/
def indexCap (markerNum : Nat) : Nat :=
  if markerNum = 0 then 247 else 248

/-- Embeds the `ledgerIndex` computation of `supplyOf`:
`editionMarkerNumber > 0 ? floor(editionIndex / 8) : editionIndex < 7 ? 0 : floor((editionIndex - 7) / 8) + 1`. -/
def ledgerIndexOf (markerNum editionIndex : Nat) : Nat :=
  if 0 < markerNum then editionIndex / 8
  else if editionIndex < 7 then 0
  else (editionIndex - 7) / 8 + 1

/-- Embeds the `size` computation of `supplyOf`:
`const size = editionMarkerNumber === 0 && ledgerIndex === 0 ? 7 : 8;`. -/
def size (markerNum ledgerIndex : Nat) : Nat :=
  if markerNum = 0 ∧ ledgerIndex = 0 then 7 else 8

/-- Embeds the `bitmask` computation of `supplyOf` (the four-way conditional
over `shiftBase = 1 << (size - 1)`); JavaScript `>>`, `%` and
`Math.floor` on the non-negative operands involved coincide with
`Nat.shiftRight`, `Nat.mod` and `Nat.div`. -/
def bitmask (markerNum editionIndex ledgerIndex : Nat) : Nat :=
  let shiftBase := Nat.shiftLeft 1 (size markerNum ledgerIndex - 1)
  if ledgerIndex = 0 then Nat.shiftRight shiftBase editionIndex
  else if 0 < markerNum then Nat.shiftRight shiftBase (editionIndex % (ledgerIndex * 8))
  else if ledgerIndex = 1 then Nat.shiftRight shiftBase (editionIndex - 7)
  else Nat.shiftRight shiftBase ((editionIndex - 7) % ((ledgerIndex - 1) * 8))

/-- Embeds the per-iteration test of `supplyOf`:
`(editionMarker.ledger[ledgerIndex] & bitmask) !== 0`.  The on-chain
edition-marker accounts are modelled as a total map
`ledger : page -> byte index -> byte value`. -/
def editionExists (ledger : Nat → Nat → Nat) (markerNum editionIndex : Nat) : Bool :=
  let li := ledgerIndexOf markerNum editionIndex
  Nat.land (ledger markerNum li) (bitmask markerNum editionIndex li) != 0

/-- Embeds the inner `for (editionIndex = 0; editionIndex < indexCap; ...)`
loop of `supplyOf`: walks `remaining` indices starting at `editionIndex`,
incrementing the accumulator (`totalSupply`) per set bit; the Bool result
is `true` when the loop hit an unset bit (the labelled break of the
source) and `false` when the page was exhausted. -/
def scanPage (ledger : Nat → Nat → Nat) (markerNum : Nat) :
    Nat → Nat → Nat → Nat × Bool
  | _, 0, acc => (acc, false)
  | editionIndex, remaining + 1, acc =>
    if editionExists ledger markerNum editionIndex then
      scanPage ledger markerNum (editionIndex + 1) remaining (acc + 1)
    else
      (acc, true)

/-- Embeds the outer `cursedBitwiseLogicLoop: while (true)` of `supplyOf`,
made total with an explicit page budget `fuel`; `none` means the budget
was exhausted before an unset bit was found. -/
def supplyOfAux (ledger : Nat → Nat → Nat) : Nat → Nat → Nat → Option Nat
  | _, _, 0 => none
  | markerNum, acc, fuel + 1 =>
    match scanPage ledger markerNum 0 (indexCap markerNum) acc with
    | (acc2, true) => some acc2
    | (acc2, false) => supplyOfAux ledger (markerNum + 1) acc2 fuel

/-- Embeds `NFTCollection.supplyOf`: `totalSupply` starts at 1 (the
original) and the page walk starts at edition-marker page 0. -/
def supplyOf (ledger : Nat → Nat → Nat) (fuel : Nat) : Option Nat :=
  supplyOfAux ledger 0 1 fuel

/-- The worked ledger of the specification: page 0 has byte 0 with its 7
usable bits all set (`0b1111111 = 127`) and byte 1 equal to
`0b11100000 = 224`; every other byte is 0. -/
def exampleLedger : Nat → Nat → Nat := fun _ i =>
  if i = 0 then 127 else if i = 1 then 224 else 0

/-- Global edition index `k` viewed through the page walk: page 0 covers
indices 0..246 (247 usable bits) and page `m >= 1` covers the next 248. -/
def pageStart (m : Nat) : Nat :=
  if m = 0 then 0 else 247 + (m - 1) * 248

/-- The page on which global edition index `k` lives. -/
def pageOfEdition (k : Nat) : Nat :=
  if k < 247 then 0 else (k - 247) / 248 + 1

/-- The bit the algorithm tests for global edition index `k`. -/
def editionBit (ledger : Nat → Nat → Nat) (k : Nat) : Bool :=
  editionExists ledger (pageOfEdition k) (k - pageStart (pageOfEdition k))

end NFTCollection

/-!
Part 2: the ERC-1155 capability façade (src/unnamed/part_001).  The
`Erc1155` class detects optional extensions from the contract interface
at construction time and stores each handle in an optional field; guarded
accessors raise `ExtensionNotImplementedError` on absent capabilities.

The helpers `detectContractFeature`, `assertEnabled`, the feature
constants and the extension handle classes (`Erc1155Mintable`,
`Erc1155LazyMintable`, ...) live outside the provided sources and are
modelled from the spec where so marked; everything else follows
src/unnamed/part_001.
-/

/-- Modelled from the spec: a `CapabilityName`-style tag carried by every
`ExtensionNotImplemented` failure, naming the capability and the standard
family it belongs to (spec section 7: `ExtensionNotImplemented(capability, family)`). -/
structure Feature where
  name : String
  family : String
deriving DecidableEq

/-- Modelled from the spec: the structured failure raised by the Guarded
Accessor for an absent capability, carrying the capability name and the
standard family. -/
structure ExtensionNotImplementedError where
  feature : Feature
deriving DecidableEq

def FEATURE_EDITION_ENUMERABLE : Feature := ⟨"Enumerable", "ERC1155"⟩

def FEATURE_EDITION_MINTABLE : Feature := ⟨"Mintable", "ERC1155"⟩

def FEATURE_EDITION_BATCH_MINTABLE : Feature := ⟨"BatchMintable", "ERC1155"⟩

def FEATURE_EDITION_BURNABLE : Feature := ⟨"Burnable", "ERC1155"⟩

def FEATURE_EDITION_LAZY_MINTABLE : Feature := ⟨"LazyMintable", "ERC1155"⟩

def FEATURE_EDITION_SIGNATURE_MINTABLE : Feature := ⟨"SignatureMintable", "ERC1155"⟩

def FEATURE_EDITION_CLAIMABLE : Feature := ⟨"Claimable", "ERC1155"⟩

def FEATURE_EDITION_CLAIMABLE_WITH_CONDITIONS : Feature :=
  ⟨"ClaimableWithConditions", "ERC1155"⟩

def FEATURE_EDITION_REVEALABLE : Feature := ⟨"Revealable", "ERC1155"⟩

/-- The interface descriptor of a deployed contract: its set of supported
function/event selectors (spec section 3, `InterfaceDescriptor`); selectors
are modelled as strings. -/
structure InterfaceDescriptor where
  selectors : List String
deriving DecidableEq

/-- Modelled from the spec: the Capability Registry, one required selector
set per detectable feature key; the keys are exactly the strings the
`Erc1155` source passes to `detectContractFeature`. -/
def featureSelectors : String → List String
  | "ERC1155Enumerable" => ["nextTokenIdToMint", "totalSupply"]
  | "ERC1155Mintable" => ["mintTo"]
  | "ERC1155BatchMintable" => ["mintBatch"]
  | "ERC1155Burnable" => ["burn", "burnBatch"]
  | "ERC1155LazyMintable" => ["lazyMint"]
  | "ERC1155SignatureMintable" => ["mintWithSignature"]
  | "ERC1155ClaimableWithConditions" => ["claim", "setClaimConditions"]
  | "ERC1155Claimable" => ["claim"]
  | "ERC1155Revealable" => ["reveal"]
  | _ => []

/-- The shared contract-call plumbing the façade and every handle point
at.  `descriptor` is the immutable interface descriptor; `network` is the
active network/signer context and `networkGen` counts how many times
`updateSignerOrProvider` has run (ghost context-versioning, spec section 9:
every façade and handle carries the context version it was built against). -/
structure ContractWrapper where
  descriptor : InterfaceDescriptor
  network : Nat
  networkGen : Nat
deriving DecidableEq

/-- Modelled from the spec: `ContractWrapper.updateSignerOrProvider`
swaps the active network/signer context of the shared wrapper in place;
the descriptor is untouched and the ghost context version advances. -/
def updateSignerOrProvider (w : ContractWrapper) (network : Nat) : ContractWrapper :=
  { descriptor := w.descriptor, network := network, networkGen := w.networkGen + 1 }

/-- Modelled from the spec: the Capability Probe
`supports(descriptor, requirement)` at `FULL` support: every selector in
the feature's required set is present in the descriptor.  This is the
`detectContractFeature(contractWrapper, featureName)` call the `Erc1155`
source makes. -/
def detectContractFeature (w : ContractWrapper) (featureName : String) : Bool :=
  (featureSelectors featureName).all (fun s => decide (s ∈ w.descriptor.selectors))

/-- The `Erc1155Enumerable` handle (class outside the provided sources):
only its presence and the ghost context version at construction matter
here. -/
structure Erc1155Enumerable where
  builtAtGen : Nat
deriving DecidableEq

/-- The `Erc1155Mintable` handle.  Modelled from the spec for its `batch`
field: the batch-mint handle is constructed inside `Erc1155Mintable` when
the `ERC1155BatchMintable` selectors are detected, so it is reachable only
through the `Mintable` handle (`this.mintable?.batch` in the source). -/
structure Erc1155Mintable where
  builtAtGen : Nat
  batch : Option Nat
deriving DecidableEq

/-- The `Erc1155Burnable` handle. -/
structure Erc1155Burnable where
  builtAtGen : Nat
deriving DecidableEq

/-- The `Erc1155LazyMintable` handle.  Modelled from the spec for its
optional sub-handles: `claimWithConditions`, `claim` and `revealer` are
detected from the descriptor when the lazy-mintable handle is built
(the `Erc1155` source reaches them as `this.lazyMintable?.claimWithConditions`,
`this.lazyMintable?.claim` and `this.lazyMintable?.revealer`). -/
structure Erc1155LazyMintable where
  builtAtGen : Nat
  claimWithConditions : Option Nat
  claim : Option Nat
  revealer : Option Nat
deriving DecidableEq

/-- The `Erc1155SignatureMintable` handle. -/
structure Erc1155SignatureMintable where
  builtAtGen : Nat
deriving DecidableEq

/-- Embeds `Erc1155.detectErc1155Enumerable` (part_001 lines 989-999):
a handle is constructed exactly when `detectContractFeature` reports the
feature, otherwise the field is `undefined`. -/
def detectErc1155Enumerable (w : ContractWrapper) : Option Erc1155Enumerable :=
  if detectContractFeature w "ERC1155Enumerable" then some ⟨w.networkGen⟩ else none

/-- Embeds `Erc1155.detectErc1155Mintable` (part_001 lines 1001-1011),
with the `batch` sub-handle modelled from the spec as described on
`Erc1155Mintable`. -/
def detectErc1155Mintable (w : ContractWrapper) : Option Erc1155Mintable :=
  if detectContractFeature w "ERC1155Mintable" then
    some { builtAtGen := w.networkGen
         , batch :=
             if detectContractFeature w "ERC1155BatchMintable" then
               some w.networkGen
             else none }
  else none

/-- Embeds `Erc1155.detectErc1155Burnable` (part_001 lines 1013-1023). -/
def detectErc1155Burnable (w : ContractWrapper) : Option Erc1155Burnable :=
  if detectContractFeature w "ERC1155Burnable" then some ⟨w.networkGen⟩ else none

/-- Embeds `Erc1155.detectErc1155LazyMintable` (part_001 lines 1025-1035),
with the sub-handles modelled from the spec as described on
`Erc1155LazyMintable`. -/
def detectErc1155LazyMintable (w : ContractWrapper) : Option Erc1155LazyMintable :=
  if detectContractFeature w "ERC1155LazyMintable" then
    some { builtAtGen := w.networkGen
         , claimWithConditions :=
             if detectContractFeature w "ERC1155ClaimableWithConditions" then
               some w.networkGen
             else none
         , claim :=
             if detectContractFeature w "ERC1155Claimable" then
               some w.networkGen
             else none
         , revealer :=
             if detectContractFeature w "ERC1155Revealable" then
               some w.networkGen
             else none }
  else none

/-- Embeds `Erc1155.detectErc1155SignatureMintable` (part_001 lines 1037-1049). -/
def detectErc1155SignatureMintable (w : ContractWrapper) : Option Erc1155SignatureMintable :=
  if detectContractFeature w "ERC1155SignatureMintable" then some ⟨w.networkGen⟩ else none

/-- The `Erc1155` façade: the shared wrapper plus the five optional
capability fields assigned in the constructor (part_001 lines 72-76). -/
structure Erc1155 where
  contractWrapper : ContractWrapper
  query : Option Erc1155Enumerable
  mintable : Option Erc1155Mintable
  burnable : Option Erc1155Burnable
  lazyMintable : Option Erc1155LazyMintable
  signatureMintable : Option Erc1155SignatureMintable
deriving DecidableEq

/-- Embeds the `Erc1155` constructor (part_001 lines 81-89): stores the
wrapper and runs the five detections. -/
def mkErc1155 (w : ContractWrapper) : Erc1155 :=
  { contractWrapper := w
  , query := detectErc1155Enumerable w
  , mintable := detectErc1155Mintable w
  , burnable := detectErc1155Burnable w
  , lazyMintable := detectErc1155LazyMintable w
  , signatureMintable := detectErc1155SignatureMintable w }

/-- Embeds `Erc1155.onNetworkUpdated` (part_001 lines 94-96): it only
forwards to `contractWrapper.updateSignerOrProvider`; no capability field
is touched. -/
def onNetworkUpdated (e : Erc1155) (network : Nat) : Erc1155 :=
  { e with contractWrapper := updateSignerOrProvider e.contractWrapper network }

deriving instance DecidableEq for Except

/-- How a JavaScript call site observes an accessor: a property getter
either returns a value or throws synchronously (`sync`), while an `async`
method always returns a promise, possibly already rejected (`promise`) -
an exception thrown inside an `async` body becomes a rejection of the
returned promise, never a synchronous throw at the call site. -/
inductive CallResult (α : Type) where
  | sync (r : Except ExtensionNotImplementedError α)
  | promise (p : Except ExtensionNotImplementedError α)
deriving DecidableEq

/-- True exactly when the call site observes a synchronous raise. -/
def CallResult.raisesSynchronously : CallResult α → Bool
  | .sync (.error _) => true
  | _ => false

/-- True when the call failed, whether synchronously or by promise
rejection. -/
def CallResult.failed : CallResult α → Bool
  | .sync (.error _) => true
  | .promise (.error _) => true
  | _ => false

/-- Modelled from the spec: the Guarded Accessor `assertEnabled`: returns
the handle unchanged when present, otherwise raises
`ExtensionNotImplemented` carrying the feature. -/
def assertEnabled (h : Option α) (f : Feature) : Except ExtensionNotImplementedError α :=
  match h with
  | some x => Except.ok x
  | none => Except.error ⟨f⟩

namespace Erc1155

/-- Embeds `Erc1155.getAll` (async, part_001 lines 328-332). -/
def getAll (e : Erc1155) : CallResult Erc1155Enumerable :=
  .promise (assertEnabled e.query FEATURE_EDITION_ENUMERABLE)

/-- Embeds `Erc1155.totalCount` (async, part_001 lines 341-343). -/
def totalCount (e : Erc1155) : CallResult Erc1155Enumerable :=
  .promise (assertEnabled e.query FEATURE_EDITION_ENUMERABLE)

/-- Embeds `Erc1155.totalCirculatingSupply` (async, part_001 lines 352-359). -/
def totalCirculatingSupply (e : Erc1155) : CallResult Erc1155Enumerable :=
  .promise (assertEnabled e.query FEATURE_EDITION_ENUMERABLE)

/-- Embeds `Erc1155.getOwned` (async, part_001 lines 376-380). -/
def getOwned (e : Erc1155) : CallResult Erc1155Enumerable :=
  .promise (assertEnabled e.query FEATURE_EDITION_ENUMERABLE)

/-- Embeds `Erc1155.mintTo` (async, part_001 lines 451-459). -/
def mintTo (e : Erc1155) : CallResult Erc1155Mintable :=
  .promise (assertEnabled e.mintable FEATURE_EDITION_MINTABLE)

/-- Embeds `Erc1155.mintAdditionalSupply` (async, part_001 lines 475-487). -/
def mintAdditionalSupply (e : Erc1155) : CallResult Erc1155Mintable :=
  .promise (assertEnabled e.mintable FEATURE_EDITION_MINTABLE)

/-- Embeds `Erc1155.mintAdditionalSupplyTo` (async, part_001 lines 496-505). -/
def mintAdditionalSupplyTo (e : Erc1155) : CallResult Erc1155Mintable :=
  .promise (assertEnabled e.mintable FEATURE_EDITION_MINTABLE)

/-- Embeds `Erc1155.mintBatchTo` (async, part_001 lines 583-591):
`assertEnabled(this.mintable?.batch, FEATURE_EDITION_BATCH_MINTABLE)` -
the batch handle is reached through the optional `mintable` handle. -/
def mintBatchTo (e : Erc1155) : CallResult Nat :=
  .promise (assertEnabled (e.mintable.bind Erc1155Mintable.batch)
    FEATURE_EDITION_BATCH_MINTABLE)

/-- Embeds `Erc1155.burn` (async, part_001 lines 614-622). -/
def burn (e : Erc1155) : CallResult Erc1155Burnable :=
  .promise (assertEnabled e.burnable FEATURE_EDITION_BURNABLE)

/-- Embeds `Erc1155.burnFrom` (async, part_001 lines 646-656). -/
def burnFrom (e : Erc1155) : CallResult Erc1155Burnable :=
  .promise (assertEnabled e.burnable FEATURE_EDITION_BURNABLE)

/-- Embeds `Erc1155.burnBatch` (async, part_001 lines 677-685). -/
def burnBatch (e : Erc1155) : CallResult Erc1155Burnable :=
  .promise (assertEnabled e.burnable FEATURE_EDITION_BURNABLE)

/-- Embeds `Erc1155.burnBatchFrom` (async, part_001 lines 709-719). -/
def burnBatchFrom (e : Erc1155) : CallResult Erc1155Burnable :=
  .promise (assertEnabled e.burnable FEATURE_EDITION_BURNABLE)

/-- Embeds `Erc1155.lazyMint` (async, part_001 lines 750-760). -/
def lazyMint (e : Erc1155) : CallResult Erc1155LazyMintable :=
  .promise (assertEnabled e.lazyMintable FEATURE_EDITION_LAZY_MINTABLE)

/-- Embeds `Erc1155.claimTo` (async, part_001 lines 856-876): tries
`lazyMintable?.claimWithConditions`, then `lazyMintable?.claim`, then
throws `ExtensionNotImplementedError(FEATURE_EDITION_CLAIMABLE)`. -/
def claimTo (e : Erc1155) : CallResult Nat :=
  .promise (
    match e.lazyMintable.bind Erc1155LazyMintable.claimWithConditions with
    | some h => Except.ok h
    | none =>
      match e.lazyMintable.bind Erc1155LazyMintable.claim with
      | some h => Except.ok h
      | none => Except.error ⟨FEATURE_EDITION_CLAIMABLE⟩)

/-- Embeds the `Erc1155.claimConditions` property getter (synchronous,
part_001 lines 901-906). -/
def claimConditions (e : Erc1155) : CallResult Nat :=
  .sync (assertEnabled (e.lazyMintable.bind Erc1155LazyMintable.claimWithConditions)
    FEATURE_EDITION_CLAIMABLE_WITH_CONDITIONS)

/-- Embeds the `Erc1155.signature` property getter (synchronous,
part_001 lines 925-930). -/
def signature (e : Erc1155) : CallResult Erc1155SignatureMintable :=
  .sync (assertEnabled e.signatureMintable FEATURE_EDITION_SIGNATURE_MINTABLE)

/-- Embeds the `Erc1155.revealer` property getter (synchronous,
part_001 lines 966-971). -/
def revealer (e : Erc1155) : CallResult Nat :=
  .sync (assertEnabled (e.lazyMintable.bind Erc1155LazyMintable.revealer)
    FEATURE_EDITION_REVEALABLE)

end Erc1155

/-- A descriptor holding the Burnable selectors only (plus nothing else
from the optional extensions): the spec scenario for C3. -/
def burnOnlyWrapper : ContractWrapper :=
  { descriptor := ⟨["balanceOf", "safeTransferFrom", "setApprovalForAll",
      "isApprovedForAll", "uri", "burn", "burnBatch"]⟩
  , network := 0
  , networkGen := 0 }

/-- A descriptor implementing none of the optional extensions. -/
def emptyWrapper : ContractWrapper :=
  { descriptor := ⟨["balanceOf", "safeTransferFrom"]⟩
  , network := 0
  , networkGen := 0 }

/-- A descriptor implementing every detectable extension. -/
def fullWrapper : ContractWrapper :=
  { descriptor := ⟨["nextTokenIdToMint", "totalSupply", "mintTo", "mintBatch",
      "burn", "burnBatch", "lazyMint", "mintWithSignature", "claim",
      "setClaimConditions", "reveal"]⟩
  , network := 0
  , networkGen := 0 }

/-- A descriptor holding the BatchMintable selectors but not the Mintable
selectors: the synthetic descriptor of the C4 composite rule. -/
def batchOnlyWrapper : ContractWrapper :=
  { descriptor := ⟨["balanceOf", "mintBatch"]⟩
  , network := 0
  , networkGen := 0 }

/-!
Part 3: `Erc1155.get` (src/unnamed/part_001, lines 115-128): builds an
NFT record from the outcomes of the two underlying calls
`totalSupply(tokenId).catch(() => 0)` and `getTokenMetadata(tokenId)`.
-/

/-- The record `Erc1155.get` returns. -/
structure NFTRecord where
  owner : String
  metadata : String
  type : String
  supply : Nat
deriving DecidableEq

/-- `ethers.constants.AddressZero`. -/
def zeroAddress : String := "0x0000000000000000000000000000000000000000"

/-- Whether a call outcome succeeded. -/
def resultOk : Except String α → Bool
  | .ok _ => true
  | .error _ => false

/-- `Number.MAX_SAFE_INTEGER`, the largest value ethers v5
`BigNumber.toNumber()` can return. -/
def MAX_SAFE_INTEGER : Nat := 2 ^ 53 - 1

/-- Ethers v5 `BigNumber.toNumber()` on a non-negative value: returns the
value when it fits in 53 bits and throws an overflow error otherwise
(bn.js: `Number can only safely store up to 53 bits`). -/
def toNumber (s : Nat) : Except String Nat :=
  if s ≤ MAX_SAFE_INTEGER then .ok s else .error "overflow"

/-- Embeds `Erc1155.get`: the two underlying calls are passed by their
outcomes.  A rejection of `totalSupply` is caught by the inner `.catch`
and replaced by `BigNumber.from(0)`; a rejection of the metadata fetch
propagates through `Promise.all`.  The record construction then runs
`supply.toNumber()`, which is outside the `.catch` and throws (rejecting
the `async` method) when the resolved supply exceeds
`Number.MAX_SAFE_INTEGER`; a successful record always carries the zero
address as owner and the literal type tag. -/
def Erc1155.get (totalSupplyRes : Except String Nat)
    (metadataRes : Except String String) : Except String NFTRecord :=
  match metadataRes with
  | .error e => .error e
  | .ok metadata =>
    let supply : Nat :=
      match totalSupplyRes with
      | .ok s => s
      | .error _ => 0
    match toNumber supply with
    | .error e => .error e
    | .ok n =>
      .ok { owner := zeroAddress
          , metadata := metadata
          , type := "ERC1155"
          , supply := n }

/-!
Part 4: `SignatureDrop` supply arithmetic
(src/packages/sdk/src/evm/contracts/prebuilt-implementations/signature-drop.ts).
The two on-chain reads are modelled as arbitrary-precision integers, as
delivered by ethers `BigNumber`.
-/

namespace SignatureDrop

/-- The pair of on-chain values the three supply functions read. -/
structure ChainState where
  totalMinted : Int
  nextTokenIdToMint : Int
deriving DecidableEq

/-- Embeds `SignatureDrop.totalClaimedSupply` (lines 329-331):
`readContract.totalMinted()`. -/
def totalClaimedSupply (c : ChainState) : Int := c.totalMinted

/-- Embeds `SignatureDrop.totalUnclaimedSupply` (lines 345-350):
`nextTokenIdToMint() - totalClaimedSupply()`. -/
def totalUnclaimedSupply (c : ChainState) : Int :=
  c.nextTokenIdToMint - totalClaimedSupply c

/-- Embeds `SignatureDrop.totalSupply` (lines 243-247):
`claimed.add(unclaimed)`. -/
def totalSupply (c : ChainState) : Int :=
  totalClaimedSupply c + totalUnclaimedSupply c

end SignatureDrop

namespace NFTCollection

theorem pageStart_succ (m : Nat) : pageStart (m + 1) = pageStart m + indexCap m := by
  cases m with
  | zero => simp [pageStart, indexCap]
  | succ n => simp [pageStart, indexCap]; omega

theorem pageOfEdition_pageStart_add (m j : Nat) (hj : j < indexCap m) :
    pageOfEdition (pageStart m + j) = m := by
  cases m with
  | zero =>
    simp [indexCap] at hj
    simp [pageStart, pageOfEdition, hj]
  | succ n =>
    simp [indexCap] at hj
    have h1 : ¬ (247 + n * 248 + j < 247) := by omega
    simp [pageStart, pageOfEdition, h1]
    omega

theorem le_pageOfEdition_of_pageStart_le (m k : Nat) (h : pageStart m ≤ k) :
    m ≤ pageOfEdition k := by
  cases m with
  | zero => exact Nat.zero_le _
  | succ n =>
    simp [pageStart] at h
    have h2 : ¬ (k < 247) := by omega
    simp [pageOfEdition, h2]
    omega

theorem editionBit_pageStart_add (ledger : Nat → Nat → Nat) (m j : Nat)
    (hj : j < indexCap m) :
    editionBit ledger (pageStart m + j) = editionExists ledger m j := by
  unfold editionBit
  rw [pageOfEdition_pageStart_add m j hj, Nat.add_sub_cancel_left]

theorem scanPage_all_set (ledger : Nat → Nat → Nat) (m : Nat) :
    ∀ (r idx acc : Nat),
      (∀ j, j < r → editionExists ledger m (idx + j) = true) →
      scanPage ledger m idx r acc = (acc + r, false) := by
  intro r
  induction r with
  | zero => intro idx acc _; simp [scanPage]
  | succ n ih =>
    intro idx acc h
    have h0 : editionExists ledger m idx = true := by
      have := h 0 (Nat.succ_pos n); simpa using this
    simp only [scanPage, h0, if_true]
    rw [ih (idx + 1) (acc + 1) (fun j hj => by
      rw [show idx + 1 + j = idx + (j + 1) by omega]
      exact h (j + 1) (by omega))]
    rw [show acc + 1 + n = acc + (n + 1) by omega]

theorem scanPage_first_unset (ledger : Nat → Nat → Nat) (m : Nat) :
    ∀ (j0 idx r acc : Nat),
      (∀ j, j < j0 → editionExists ledger m (idx + j) = true) →
      editionExists ledger m (idx + j0) = false →
      j0 < r →
      scanPage ledger m idx r acc = (acc + j0, true) := by
  intro j0
  induction j0 with
  | zero =>
    intro idx r acc _ hun hr
    obtain ⟨n, rfl⟩ : ∃ n, r = n + 1 := ⟨r - 1, by omega⟩
    have h0 : editionExists ledger m idx = false := by simpa using hun
    simp [scanPage, h0]
  | succ j ih =>
    intro idx r acc hset hun hr
    obtain ⟨n, rfl⟩ : ∃ n, r = n + 1 := ⟨r - 1, by omega⟩
    have h0 : editionExists ledger m idx = true := by
      have := hset 0 (by omega); simpa using this
    simp only [scanPage, h0, if_true]
    have hun' : editionExists ledger m (idx + 1 + j) = false := by
      rw [show idx + 1 + j = idx + (j + 1) by omega]; exact hun
    have hset' : ∀ j', j' < j → editionExists ledger m (idx + 1 + j') = true := by
      intro j' hj'
      rw [show idx + 1 + j' = idx + (j' + 1) by omega]
      exact hset (j' + 1) (by omega)
    rw [ih (idx + 1) n (acc + 1) hset' hun' (by omega)]
    rw [show acc + 1 + j = acc + (j + 1) by omega]

theorem supplyOfAux_first_unset (ledger : Nat → Nat → Nat) (k0 : Nat)
    (hun : editionBit ledger k0 = false) :
    ∀ (fuel m acc : Nat),
      (∀ k, pageStart m ≤ k → k < k0 → editionBit ledger k = true) →
      pageStart m ≤ k0 →
      pageOfEdition k0 < m + fuel →
      supplyOfAux ledger m acc fuel = some (acc + (k0 - pageStart m)) := by
  intro fuel
  induction fuel with
  | zero =>
    intro m acc _ hm hf
    exact absurd hf (by have := le_pageOfEdition_of_pageStart_le m k0 hm; omega)
  | succ f ih =>
    intro m acc hset hm hf
    have hps := pageStart_succ m
    by_cases hcase : k0 < pageStart (m + 1)
    · have hj0 : k0 - pageStart m < indexCap m := by omega
      have hsp : scanPage ledger m 0 (indexCap m) acc = (acc + (k0 - pageStart m), true) := by
        apply scanPage_first_unset
        · intro j hj
          have hjcap : j < indexCap m := by omega
          rw [Nat.zero_add, ← editionBit_pageStart_add ledger m j hjcap]
          exact hset (pageStart m + j) (by omega) (by omega)
        · rw [Nat.zero_add, ← editionBit_pageStart_add ledger m (k0 - pageStart m) hj0]
          rw [show pageStart m + (k0 - pageStart m) = k0 by omega]
          exact hun
        · exact hj0
      simp [supplyOfAux, hsp]
    · have hall : ∀ j, j < indexCap m → editionExists ledger m (0 + j) = true := by
        intro j hj
        rw [Nat.zero_add, ← editionBit_pageStart_add ledger m j hj]
        exact hset (pageStart m + j) (by omega) (by omega)
      have hsp := scanPage_all_set ledger m (indexCap m) 0 acc hall
      simp only [supplyOfAux, hsp]
      rw [ih (m + 1) (acc + indexCap m)
        (fun k hk1 hk2 => hset k (by omega) hk2) (by omega) (by omega)]
      congr 1
      omega

end NFTCollection

/-- C1: the edition supply computation walks the packed ledger and returns
1 (the original) plus the set bits before the first unset bit; on a ledger
whose first page has the 7 usable bits of byte 0 all set and byte 1 equal
to `0b11100000`, the returned supply is exactly 11, for any page budget
that lets the walk start. -/
theorem NFTCollection.supplyOf_example (fuel : Nat) (hf : 1 ≤ fuel) :
    NFTCollection.supplyOf NFTCollection.exampleLedger fuel = some 11 := by
  obtain ⟨f, rfl⟩ : ∃ f, fuel = f + 1 := ⟨fuel - 1, by omega⟩
  have hs : NFTCollection.scanPage NFTCollection.exampleLedger 0 0
      (NFTCollection.indexCap 0) 1 = (11, true) := by decide
  simp [NFTCollection.supplyOf, NFTCollection.supplyOfAux, hs]

/-- Witness for C1 at the concrete page budget 1. -/
theorem NFTCollection.supplyOf_example_witness :
    NFTCollection.supplyOf NFTCollection.exampleLedger 1 = some 11 :=
  NFTCollection.supplyOf_example 1 (by decide)

/-- C2: the first edition-marker page exposes 247 usable bits and every
later page 248; for every ledger with at least one unset bit the page
walk terminates at the first unset bit (a page budget as large as that
bit's page suffices) and the result is 1 plus the number of set bits
strictly before it. -/
theorem NFTCollection.supplyOf_stops_at_first_unset :
    NFTCollection.indexCap 0 = 247 ∧
    (∀ m, 0 < m → NFTCollection.indexCap m = 248) ∧
    ∀ (ledger : Nat → Nat → Nat) (h : ∃ k, NFTCollection.editionBit ledger k = false),
      NFTCollection.supplyOf ledger (NFTCollection.pageOfEdition (Nat.find h) + 1) =
        some (1 + ((List.range (Nat.find h)).filter
          (fun j => NFTCollection.editionBit ledger j)).length) := by
  refine ⟨rfl, fun m hm => by unfold NFTCollection.indexCap; rw [if_neg (by omega)], ?_⟩
  intro ledger h
  set k0 := Nat.find h with hk0
  have hun : NFTCollection.editionBit ledger k0 = false := Nat.find_spec h
  have hset : ∀ k, k < k0 → NFTCollection.editionBit ledger k = true := by
    intro k hk
    have hne := Nat.find_min h hk
    cases hb : NFTCollection.editionBit ledger k with
    | false => exact absurd hb hne
    | true => rfl
  have hfilter : ((List.range k0).filter
      (fun j => NFTCollection.editionBit ledger j)).length = k0 := by
    rw [List.filter_eq_self.mpr (fun a ha => hset a (List.mem_range.mp ha)),
      List.length_range]
  rw [hfilter]
  unfold NFTCollection.supplyOf
  have := NFTCollection.supplyOfAux_first_unset ledger k0 hun
    (NFTCollection.pageOfEdition k0 + 1) 0 1
    (fun k _ hk2 => hset k hk2)
    (by unfold NFTCollection.pageStart; simp)
    (by omega)
  simpa [NFTCollection.pageStart] using this

/-- Witness for C2 on the concrete example ledger, whose bit 10 is the
first unset bit. -/
theorem NFTCollection.supplyOf_stops_at_first_unset_witness :
    NFTCollection.indexCap 0 = 247 ∧ (0 < 1 → NFTCollection.indexCap 1 = 248) ∧
    ∃ h : ∃ k, NFTCollection.editionBit NFTCollection.exampleLedger k = false,
      NFTCollection.supplyOf NFTCollection.exampleLedger
          (NFTCollection.pageOfEdition (Nat.find h) + 1) =
        some (1 + ((List.range (Nat.find h)).filter
          (fun j => NFTCollection.editionBit NFTCollection.exampleLedger j)).length) := by
  have hex : ∃ k, NFTCollection.editionBit NFTCollection.exampleLedger k = false :=
    ⟨10, by decide⟩
  have hthm := NFTCollection.supplyOf_stops_at_first_unset
  exact ⟨hthm.1, fun _ => hthm.2.1 1 (by decide),
    ⟨hex, hthm.2.2 NFTCollection.exampleLedger hex⟩⟩

theorem detectContractFeature_eq_false_of_missing (w : ContractWrapper) (key s : String)
    (hs : s ∈ featureSelectors key) (hn : s ∉ w.descriptor.selectors) :
    detectContractFeature w key = false := by
  unfold detectContractFeature
  cases hall : (featureSelectors key).all (fun t => decide (t ∈ w.descriptor.selectors)) with
  | false => rfl
  | true => exact absurd (of_decide_eq_true (List.all_eq_true.mp hall s hs)) hn

theorem detectContractFeature_congr (w1 w2 : ContractWrapper)
    (h : w1.descriptor = w2.descriptor) (key : String) :
    detectContractFeature w1 key = detectContractFeature w2 key := by
  unfold detectContractFeature
  rw [h]

theorem mkErc1155_query_isSome (w : ContractWrapper) :
    (mkErc1155 w).query.isSome = detectContractFeature w "ERC1155Enumerable" := by
  cases hd : detectContractFeature w "ERC1155Enumerable" <;>
    simp [mkErc1155, detectErc1155Enumerable, hd]

theorem mkErc1155_mintable_isSome (w : ContractWrapper) :
    (mkErc1155 w).mintable.isSome = detectContractFeature w "ERC1155Mintable" := by
  cases hd : detectContractFeature w "ERC1155Mintable" <;>
    simp [mkErc1155, detectErc1155Mintable, hd]

theorem mkErc1155_burnable_isSome (w : ContractWrapper) :
    (mkErc1155 w).burnable.isSome = detectContractFeature w "ERC1155Burnable" := by
  cases hd : detectContractFeature w "ERC1155Burnable" <;>
    simp [mkErc1155, detectErc1155Burnable, hd]

theorem mkErc1155_lazyMintable_isSome (w : ContractWrapper) :
    (mkErc1155 w).lazyMintable.isSome = detectContractFeature w "ERC1155LazyMintable" := by
  cases hd : detectContractFeature w "ERC1155LazyMintable" <;>
    simp [mkErc1155, detectErc1155LazyMintable, hd]

theorem mkErc1155_signatureMintable_isSome (w : ContractWrapper) :
    (mkErc1155 w).signatureMintable.isSome =
      detectContractFeature w "ERC1155SignatureMintable" := by
  cases hd : detectContractFeature w "ERC1155SignatureMintable" <;>
    simp [mkErc1155, detectErc1155SignatureMintable, hd]

theorem mkErc1155_batch_isSome (w : ContractWrapper) :
    ((mkErc1155 w).mintable.bind Erc1155Mintable.batch).isSome =
      (detectContractFeature w "ERC1155Mintable" &&
        detectContractFeature w "ERC1155BatchMintable") := by
  cases hm : detectContractFeature w "ERC1155Mintable" <;>
    cases hb : detectContractFeature w "ERC1155BatchMintable" <;>
      simp [mkErc1155, detectErc1155Mintable, hm, hb]

theorem mkErc1155_claimWithConditions_isSome (w : ContractWrapper) :
    ((mkErc1155 w).lazyMintable.bind Erc1155LazyMintable.claimWithConditions).isSome =
      (detectContractFeature w "ERC1155LazyMintable" &&
        detectContractFeature w "ERC1155ClaimableWithConditions") := by
  cases hl : detectContractFeature w "ERC1155LazyMintable" <;>
    cases hc : detectContractFeature w "ERC1155ClaimableWithConditions" <;>
      simp [mkErc1155, detectErc1155LazyMintable, hl, hc]

theorem mkErc1155_claim_isSome (w : ContractWrapper) :
    ((mkErc1155 w).lazyMintable.bind Erc1155LazyMintable.claim).isSome =
      (detectContractFeature w "ERC1155LazyMintable" &&
        detectContractFeature w "ERC1155Claimable") := by
  cases hl : detectContractFeature w "ERC1155LazyMintable" <;>
    cases hc : detectContractFeature w "ERC1155Claimable" <;>
      simp [mkErc1155, detectErc1155LazyMintable, hl, hc]

theorem mkErc1155_revealer_isSome (w : ContractWrapper) :
    ((mkErc1155 w).lazyMintable.bind Erc1155LazyMintable.revealer).isSome =
      (detectContractFeature w "ERC1155LazyMintable" &&
        detectContractFeature w "ERC1155Revealable") := by
  cases hl : detectContractFeature w "ERC1155LazyMintable" <;>
    cases hc : detectContractFeature w "ERC1155Revealable" <;>
      simp [mkErc1155, detectErc1155LazyMintable, hl, hc]

/-- C3: when the descriptor contains none of a capability's selectors,
the corresponding façade field is absent and every accessor for that
capability rejects with `ExtensionNotImplemented` naming that exact
capability; in particular the burn-only descriptor dispatches burn but
`mintTo` fails with the Mintable feature of the ERC1155 family. -/
theorem Erc1155.absent_capability_raises (w : ContractWrapper) :
    ((∀ s ∈ featureSelectors "ERC1155Enumerable", s ∉ w.descriptor.selectors) →
      (mkErc1155 w).query = none ∧
      Erc1155.getAll (mkErc1155 w) = .promise (.error ⟨FEATURE_EDITION_ENUMERABLE⟩) ∧
      Erc1155.totalCount (mkErc1155 w) = .promise (.error ⟨FEATURE_EDITION_ENUMERABLE⟩) ∧
      Erc1155.totalCirculatingSupply (mkErc1155 w) =
        .promise (.error ⟨FEATURE_EDITION_ENUMERABLE⟩) ∧
      Erc1155.getOwned (mkErc1155 w) = .promise (.error ⟨FEATURE_EDITION_ENUMERABLE⟩)) ∧
    ((∀ s ∈ featureSelectors "ERC1155Mintable", s ∉ w.descriptor.selectors) →
      (mkErc1155 w).mintable = none ∧
      Erc1155.mintTo (mkErc1155 w) = .promise (.error ⟨FEATURE_EDITION_MINTABLE⟩) ∧
      Erc1155.mintAdditionalSupply (mkErc1155 w) =
        .promise (.error ⟨FEATURE_EDITION_MINTABLE⟩) ∧
      Erc1155.mintAdditionalSupplyTo (mkErc1155 w) =
        .promise (.error ⟨FEATURE_EDITION_MINTABLE⟩)) ∧
    ((∀ s ∈ featureSelectors "ERC1155Burnable", s ∉ w.descriptor.selectors) →
      (mkErc1155 w).burnable = none ∧
      Erc1155.burn (mkErc1155 w) = .promise (.error ⟨FEATURE_EDITION_BURNABLE⟩) ∧
      Erc1155.burnFrom (mkErc1155 w) = .promise (.error ⟨FEATURE_EDITION_BURNABLE⟩) ∧
      Erc1155.burnBatch (mkErc1155 w) = .promise (.error ⟨FEATURE_EDITION_BURNABLE⟩) ∧
      Erc1155.burnBatchFrom (mkErc1155 w) = .promise (.error ⟨FEATURE_EDITION_BURNABLE⟩)) ∧
    ((∀ s ∈ featureSelectors "ERC1155LazyMintable", s ∉ w.descriptor.selectors) →
      (mkErc1155 w).lazyMintable = none ∧
      Erc1155.lazyMint (mkErc1155 w) = .promise (.error ⟨FEATURE_EDITION_LAZY_MINTABLE⟩)) ∧
    ((∀ s ∈ featureSelectors "ERC1155SignatureMintable", s ∉ w.descriptor.selectors) →
      (mkErc1155 w).signatureMintable = none ∧
      Erc1155.signature (mkErc1155 w) =
        .sync (.error ⟨FEATURE_EDITION_SIGNATURE_MINTABLE⟩)) ∧
    (Erc1155.burn (mkErc1155 burnOnlyWrapper) = .promise (.ok ⟨0⟩) ∧
      Erc1155.mintTo (mkErc1155 burnOnlyWrapper) =
        .promise (.error ⟨⟨"Mintable", "ERC1155"⟩⟩)) := by
  refine ⟨?_, ?_, ?_, ?_, ?_, by decide⟩
  · intro hmiss
    have hd := detectContractFeature_eq_false_of_missing w "ERC1155Enumerable"
      "nextTokenIdToMint" (by simp [featureSelectors])
      (hmiss "nextTokenIdToMint" (by simp [featureSelectors]))
    have hq : (mkErc1155 w).query = none := by
      simp [mkErc1155, detectErc1155Enumerable, hd]
    exact ⟨hq, by simp [Erc1155.getAll, assertEnabled, hq],
      by simp [Erc1155.totalCount, assertEnabled, hq],
      by simp [Erc1155.totalCirculatingSupply, assertEnabled, hq],
      by simp [Erc1155.getOwned, assertEnabled, hq]⟩
  · intro hmiss
    have hd := detectContractFeature_eq_false_of_missing w "ERC1155Mintable"
      "mintTo" (by simp [featureSelectors])
      (hmiss "mintTo" (by simp [featureSelectors]))
    have hm : (mkErc1155 w).mintable = none := by
      simp [mkErc1155, detectErc1155Mintable, hd]
    exact ⟨hm, by simp [Erc1155.mintTo, assertEnabled, hm],
      by simp [Erc1155.mintAdditionalSupply, assertEnabled, hm],
      by simp [Erc1155.mintAdditionalSupplyTo, assertEnabled, hm]⟩
  · intro hmiss
    have hd := detectContractFeature_eq_false_of_missing w "ERC1155Burnable"
      "burn" (by simp [featureSelectors])
      (hmiss "burn" (by simp [featureSelectors]))
    have hb : (mkErc1155 w).burnable = none := by
      simp [mkErc1155, detectErc1155Burnable, hd]
    exact ⟨hb, by simp [Erc1155.burn, assertEnabled, hb],
      by simp [Erc1155.burnFrom, assertEnabled, hb],
      by simp [Erc1155.burnBatch, assertEnabled, hb],
      by simp [Erc1155.burnBatchFrom, assertEnabled, hb]⟩
  · intro hmiss
    have hd := detectContractFeature_eq_false_of_missing w "ERC1155LazyMintable"
      "lazyMint" (by simp [featureSelectors])
      (hmiss "lazyMint" (by simp [featureSelectors]))
    have hl : (mkErc1155 w).lazyMintable = none := by
      simp [mkErc1155, detectErc1155LazyMintable, hd]
    exact ⟨hl, by simp [Erc1155.lazyMint, assertEnabled, hl]⟩
  · intro hmiss
    have hd := detectContractFeature_eq_false_of_missing w "ERC1155SignatureMintable"
      "mintWithSignature" (by simp [featureSelectors])
      (hmiss "mintWithSignature" (by simp [featureSelectors]))
    have hs : (mkErc1155 w).signatureMintable = none := by
      simp [mkErc1155, detectErc1155SignatureMintable, hd]
    exact ⟨hs, by simp [Erc1155.signature, assertEnabled, hs]⟩

/-- Witness for C3 on the selector-free descriptor. -/
theorem Erc1155.absent_capability_raises_witness :
    ((mkErc1155 emptyWrapper).query = none ∧
      Erc1155.getAll (mkErc1155 emptyWrapper) =
        .promise (.error ⟨FEATURE_EDITION_ENUMERABLE⟩) ∧
      Erc1155.totalCount (mkErc1155 emptyWrapper) =
        .promise (.error ⟨FEATURE_EDITION_ENUMERABLE⟩) ∧
      Erc1155.totalCirculatingSupply (mkErc1155 emptyWrapper) =
        .promise (.error ⟨FEATURE_EDITION_ENUMERABLE⟩) ∧
      Erc1155.getOwned (mkErc1155 emptyWrapper) =
        .promise (.error ⟨FEATURE_EDITION_ENUMERABLE⟩)) ∧
    ((mkErc1155 emptyWrapper).mintable = none ∧
      Erc1155.mintTo (mkErc1155 emptyWrapper) =
        .promise (.error ⟨FEATURE_EDITION_MINTABLE⟩) ∧
      Erc1155.mintAdditionalSupply (mkErc1155 emptyWrapper) =
        .promise (.error ⟨FEATURE_EDITION_MINTABLE⟩) ∧
      Erc1155.mintAdditionalSupplyTo (mkErc1155 emptyWrapper) =
        .promise (.error ⟨FEATURE_EDITION_MINTABLE⟩)) := by
  have h := Erc1155.absent_capability_raises emptyWrapper
  exact ⟨h.1 (by decide), h.2.1 (by decide)⟩

/-- C4: the batch-mint handle is reachable only through the Mintable
handle, so a descriptor holding the BatchMintable selectors but lacking
Mintable yields an absent batch capability and `mintBatchTo` rejects with
`ExtensionNotImplemented` for BatchMintable. -/
theorem Erc1155.batch_requires_mintable (w : ContractWrapper)
    (_hbatch : ∀ s ∈ featureSelectors "ERC1155BatchMintable", s ∈ w.descriptor.selectors)
    (hmint : detectContractFeature w "ERC1155Mintable" = false) :
    (mkErc1155 w).mintable.bind Erc1155Mintable.batch = none ∧
    Erc1155.mintBatchTo (mkErc1155 w) =
      .promise (.error ⟨FEATURE_EDITION_BATCH_MINTABLE⟩) := by
  have hm : (mkErc1155 w).mintable = none := by
    simp [mkErc1155, detectErc1155Mintable, hmint]
  exact ⟨by simp [hm], by simp [Erc1155.mintBatchTo, assertEnabled, hm]⟩

/-- Witness for C4 on the synthetic batch-only descriptor. -/
theorem Erc1155.batch_requires_mintable_witness :
    (mkErc1155 batchOnlyWrapper).mintable.bind Erc1155Mintable.batch = none ∧
    Erc1155.mintBatchTo (mkErc1155 batchOnlyWrapper) =
      .promise (.error ⟨FEATURE_EDITION_BATCH_MINTABLE⟩) :=
  Erc1155.batch_requires_mintable batchOnlyWrapper (by decide) (by decide)

/-- C5: façade construction is total, records absence as data (each
optional field is present exactly when its feature is detected), and an
accessor fails exactly when its capability field is absent - no detection
failure is swallowed without leaving the field absent, and failures occur
only at the point of use. -/
theorem Erc1155.construction_absence_as_data (w : ContractWrapper) :
    ((mkErc1155 w).query.isSome = detectContractFeature w "ERC1155Enumerable") ∧
    ((mkErc1155 w).mintable.isSome = detectContractFeature w "ERC1155Mintable") ∧
    ((mkErc1155 w).burnable.isSome = detectContractFeature w "ERC1155Burnable") ∧
    ((mkErc1155 w).lazyMintable.isSome = detectContractFeature w "ERC1155LazyMintable") ∧
    ((mkErc1155 w).signatureMintable.isSome =
      detectContractFeature w "ERC1155SignatureMintable") ∧
    ((Erc1155.getAll (mkErc1155 w)).failed = (mkErc1155 w).query.isNone) ∧
    ((Erc1155.mintTo (mkErc1155 w)).failed = (mkErc1155 w).mintable.isNone) ∧
    ((Erc1155.burn (mkErc1155 w)).failed = (mkErc1155 w).burnable.isNone) ∧
    ((Erc1155.lazyMint (mkErc1155 w)).failed = (mkErc1155 w).lazyMintable.isNone) ∧
    ((Erc1155.signature (mkErc1155 w)).failed =
      (mkErc1155 w).signatureMintable.isNone) := by
  refine ⟨mkErc1155_query_isSome w, mkErc1155_mintable_isSome w,
    mkErc1155_burnable_isSome w, mkErc1155_lazyMintable_isSome w,
    mkErc1155_signatureMintable_isSome w, ?_, ?_, ?_, ?_, ?_⟩
  · cases hq : (mkErc1155 w).query <;>
      simp [Erc1155.getAll, assertEnabled, CallResult.failed, hq]
  · cases hm : (mkErc1155 w).mintable <;>
      simp [Erc1155.mintTo, assertEnabled, CallResult.failed, hm]
  · cases hb : (mkErc1155 w).burnable <;>
      simp [Erc1155.burn, assertEnabled, CallResult.failed, hb]
  · cases hl : (mkErc1155 w).lazyMintable <;>
      simp [Erc1155.lazyMint, assertEnabled, CallResult.failed, hl]
  · cases hs : (mkErc1155 w).signatureMintable <;>
      simp [Erc1155.signature, assertEnabled, CallResult.failed, hs]

/-- Counterexample to C6: on a descriptor without the Mintable feature,
the `async` method `Erc1155.mintTo` does not raise synchronously at the
call site - the call returns a rejected promise, i.e. a later
asynchronous rejection. -/
theorem Erc1155.mintTo_absent_not_synchronous :
    (mkErc1155 emptyWrapper).mintable = none ∧
    (Erc1155.mintTo (mkErc1155 emptyWrapper)).raisesSynchronously = false ∧
    Erc1155.mintTo (mkErc1155 emptyWrapper) =
      .promise (.error ⟨FEATURE_EDITION_MINTABLE⟩) := by
  decide

/-- C6 as amended: on an absent capability the failure is determined at
the call site, but only the property getters (`claimConditions`,
`signature`, `revealer`) raise synchronously; every `async` accessor
(`getAll`, `mintTo`, `burn`, `lazyMint`, `claimTo`) instead returns a
promise that is already rejected with the `ExtensionNotImplemented`
failure. -/
theorem Erc1155.failure_timing (w : ContractWrapper) :
    ((mkErc1155 w).query = none →
      Erc1155.getAll (mkErc1155 w) = .promise (.error ⟨FEATURE_EDITION_ENUMERABLE⟩)) ∧
    ((mkErc1155 w).mintable = none →
      Erc1155.mintTo (mkErc1155 w) = .promise (.error ⟨FEATURE_EDITION_MINTABLE⟩)) ∧
    ((mkErc1155 w).burnable = none →
      Erc1155.burn (mkErc1155 w) = .promise (.error ⟨FEATURE_EDITION_BURNABLE⟩)) ∧
    ((mkErc1155 w).lazyMintable = none →
      Erc1155.lazyMint (mkErc1155 w) =
        .promise (.error ⟨FEATURE_EDITION_LAZY_MINTABLE⟩)) ∧
    ((mkErc1155 w).lazyMintable = none →
      Erc1155.claimTo (mkErc1155 w) = .promise (.error ⟨FEATURE_EDITION_CLAIMABLE⟩)) ∧
    ((mkErc1155 w).lazyMintable = none →
      Erc1155.claimConditions (mkErc1155 w) =
        .sync (.error ⟨FEATURE_EDITION_CLAIMABLE_WITH_CONDITIONS⟩)) ∧
    ((mkErc1155 w).signatureMintable = none →
      Erc1155.signature (mkErc1155 w) =
        .sync (.error ⟨FEATURE_EDITION_SIGNATURE_MINTABLE⟩)) ∧
    ((mkErc1155 w).lazyMintable = none →
      Erc1155.revealer (mkErc1155 w) = .sync (.error ⟨FEATURE_EDITION_REVEALABLE⟩)) := by
  refine ⟨?_, ?_, ?_, ?_, ?_, ?_, ?_, ?_⟩ <;> intro h
  · simp [Erc1155.getAll, assertEnabled, h]
  · simp [Erc1155.mintTo, assertEnabled, h]
  · simp [Erc1155.burn, assertEnabled, h]
  · simp [Erc1155.lazyMint, assertEnabled, h]
  · simp [Erc1155.claimTo, h]
  · simp [Erc1155.claimConditions, assertEnabled, h]
  · simp [Erc1155.signature, assertEnabled, h]
  · simp [Erc1155.revealer, assertEnabled, h]

/-- Witness for the amended C6 on the selector-free descriptor. -/
theorem Erc1155.failure_timing_witness :
    Erc1155.getAll (mkErc1155 emptyWrapper) =
      .promise (.error ⟨FEATURE_EDITION_ENUMERABLE⟩) ∧
    Erc1155.mintTo (mkErc1155 emptyWrapper) =
      .promise (.error ⟨FEATURE_EDITION_MINTABLE⟩) ∧
    Erc1155.burn (mkErc1155 emptyWrapper) =
      .promise (.error ⟨FEATURE_EDITION_BURNABLE⟩) ∧
    Erc1155.lazyMint (mkErc1155 emptyWrapper) =
      .promise (.error ⟨FEATURE_EDITION_LAZY_MINTABLE⟩) ∧
    Erc1155.claimTo (mkErc1155 emptyWrapper) =
      .promise (.error ⟨FEATURE_EDITION_CLAIMABLE⟩) ∧
    Erc1155.claimConditions (mkErc1155 emptyWrapper) =
      .sync (.error ⟨FEATURE_EDITION_CLAIMABLE_WITH_CONDITIONS⟩) ∧
    Erc1155.signature (mkErc1155 emptyWrapper) =
      .sync (.error ⟨FEATURE_EDITION_SIGNATURE_MINTABLE⟩) ∧
    Erc1155.revealer (mkErc1155 emptyWrapper) =
      .sync (.error ⟨FEATURE_EDITION_REVEALABLE⟩) := by
  have h := Erc1155.failure_timing emptyWrapper
  exact ⟨h.1 (by decide), h.2.1 (by decide), h.2.2.1 (by decide),
    h.2.2.2.1 (by decide), h.2.2.2.2.1 (by decide), h.2.2.2.2.2.1 (by decide),
    h.2.2.2.2.2.2.1 (by decide), h.2.2.2.2.2.2.2 (by decide)⟩

/-- Counterexample to C7: after a network update the façade still holds
the handle built at context generation 0 although the wrapper is now at
generation 1, and the updated façade differs from a façade rebuilt from a
freshly updated wrapper - `onNetworkUpdated` patches the shared wrapper
in place and re-derives nothing. -/
theorem Erc1155.onNetworkUpdated_keeps_handles :
    (onNetworkUpdated (mkErc1155 fullWrapper) 1).mintable =
      some { builtAtGen := 0, batch := some 0 } ∧
    (onNetworkUpdated (mkErc1155 fullWrapper) 1).contractWrapper.networkGen = 1 ∧
    onNetworkUpdated (mkErc1155 fullWrapper) 1 ≠
      mkErc1155 (updateSignerOrProvider fullWrapper 1) := by
  decide

/-- C7 as amended: `onNetworkUpdated` only swaps the signer/provider
context of the shared wrapper in place; every capability handle is left
exactly as constructed (none is invalidated or re-derived).  Because the
handles alias the shared wrapper and detection reads only the immutable
descriptor, a full rebuild from the updated wrapper would agree with the
patched façade on the presence of every capability. -/
theorem Erc1155.onNetworkUpdated_patches_in_place (w : ContractWrapper) (n : Nat) :
    (onNetworkUpdated (mkErc1155 w) n).contractWrapper = updateSignerOrProvider w n ∧
    (onNetworkUpdated (mkErc1155 w) n).query = (mkErc1155 w).query ∧
    (onNetworkUpdated (mkErc1155 w) n).mintable = (mkErc1155 w).mintable ∧
    (onNetworkUpdated (mkErc1155 w) n).burnable = (mkErc1155 w).burnable ∧
    (onNetworkUpdated (mkErc1155 w) n).lazyMintable = (mkErc1155 w).lazyMintable ∧
    (onNetworkUpdated (mkErc1155 w) n).signatureMintable =
      (mkErc1155 w).signatureMintable ∧
    ((mkErc1155 (updateSignerOrProvider w n)).query.isSome =
      (mkErc1155 w).query.isSome) ∧
    ((mkErc1155 (updateSignerOrProvider w n)).mintable.isSome =
      (mkErc1155 w).mintable.isSome) ∧
    ((mkErc1155 (updateSignerOrProvider w n)).burnable.isSome =
      (mkErc1155 w).burnable.isSome) ∧
    ((mkErc1155 (updateSignerOrProvider w n)).lazyMintable.isSome =
      (mkErc1155 w).lazyMintable.isSome) ∧
    ((mkErc1155 (updateSignerOrProvider w n)).signatureMintable.isSome =
      (mkErc1155 w).signatureMintable.isSome) := by
  refine ⟨rfl, rfl, rfl, rfl, rfl, rfl, ?_, ?_, ?_, ?_, ?_⟩
  · rw [mkErc1155_query_isSome, mkErc1155_query_isSome]
    exact detectContractFeature_congr _ _ rfl _
  · rw [mkErc1155_mintable_isSome, mkErc1155_mintable_isSome]
    exact detectContractFeature_congr _ _ rfl _
  · rw [mkErc1155_burnable_isSome, mkErc1155_burnable_isSome]
    exact detectContractFeature_congr _ _ rfl _
  · rw [mkErc1155_lazyMintable_isSome, mkErc1155_lazyMintable_isSome]
    exact detectContractFeature_congr _ _ rfl _
  · rw [mkErc1155_signatureMintable_isSome, mkErc1155_signatureMintable_isSome]
    exact detectContractFeature_congr _ _ rfl _

/-- C8: capability presence is a function of the immutable descriptor
alone, so two façades constructed over the same descriptor agree on the
presence/absence of every capability, including the nested batch and
claim/reveal handles. -/
theorem Erc1155.presence_determined_by_descriptor (w1 w2 : ContractWrapper)
    (h : w1.descriptor = w2.descriptor) :
    ((mkErc1155 w1).query.isSome = (mkErc1155 w2).query.isSome) ∧
    ((mkErc1155 w1).mintable.isSome = (mkErc1155 w2).mintable.isSome) ∧
    ((mkErc1155 w1).burnable.isSome = (mkErc1155 w2).burnable.isSome) ∧
    ((mkErc1155 w1).lazyMintable.isSome = (mkErc1155 w2).lazyMintable.isSome) ∧
    ((mkErc1155 w1).signatureMintable.isSome =
      (mkErc1155 w2).signatureMintable.isSome) ∧
    (((mkErc1155 w1).mintable.bind Erc1155Mintable.batch).isSome =
      ((mkErc1155 w2).mintable.bind Erc1155Mintable.batch).isSome) ∧
    (((mkErc1155 w1).lazyMintable.bind Erc1155LazyMintable.claimWithConditions).isSome =
      ((mkErc1155 w2).lazyMintable.bind Erc1155LazyMintable.claimWithConditions).isSome) ∧
    (((mkErc1155 w1).lazyMintable.bind Erc1155LazyMintable.claim).isSome =
      ((mkErc1155 w2).lazyMintable.bind Erc1155LazyMintable.claim).isSome) ∧
    (((mkErc1155 w1).lazyMintable.bind Erc1155LazyMintable.revealer).isSome =
      ((mkErc1155 w2).lazyMintable.bind Erc1155LazyMintable.revealer).isSome) := by
  refine ⟨?_, ?_, ?_, ?_, ?_, ?_, ?_, ?_, ?_⟩
  · rw [mkErc1155_query_isSome, mkErc1155_query_isSome,
      detectContractFeature_congr w1 w2 h]
  · rw [mkErc1155_mintable_isSome, mkErc1155_mintable_isSome,
      detectContractFeature_congr w1 w2 h]
  · rw [mkErc1155_burnable_isSome, mkErc1155_burnable_isSome,
      detectContractFeature_congr w1 w2 h]
  · rw [mkErc1155_lazyMintable_isSome, mkErc1155_lazyMintable_isSome,
      detectContractFeature_congr w1 w2 h]
  · rw [mkErc1155_signatureMintable_isSome, mkErc1155_signatureMintable_isSome,
      detectContractFeature_congr w1 w2 h]
  · rw [mkErc1155_batch_isSome, mkErc1155_batch_isSome,
      detectContractFeature_congr w1 w2 h, detectContractFeature_congr w1 w2 h]
  · rw [mkErc1155_claimWithConditions_isSome, mkErc1155_claimWithConditions_isSome,
      detectContractFeature_congr w1 w2 h, detectContractFeature_congr w1 w2 h]
  · rw [mkErc1155_claim_isSome, mkErc1155_claim_isSome,
      detectContractFeature_congr w1 w2 h, detectContractFeature_congr w1 w2 h]
  · rw [mkErc1155_revealer_isSome, mkErc1155_revealer_isSome,
      detectContractFeature_congr w1 w2 h, detectContractFeature_congr w1 w2 h]

/-- Witness for C8: the full descriptor with two different network
contexts. -/
theorem Erc1155.presence_determined_by_descriptor_witness :
    ((mkErc1155 fullWrapper).query.isSome =
      (mkErc1155 (updateSignerOrProvider fullWrapper 5)).query.isSome) ∧
    ((mkErc1155 fullWrapper).mintable.isSome =
      (mkErc1155 (updateSignerOrProvider fullWrapper 5)).mintable.isSome) := by
  have h := Erc1155.presence_determined_by_descriptor fullWrapper
    (updateSignerOrProvider fullWrapper 5) rfl
  exact ⟨h.1, h.2.1⟩

/-- C9: `totalSupply` is the sum of `totalClaimedSupply` and
`totalUnclaimedSupply`, and since the unclaimed supply is
`nextTokenIdToMint` minus the claimed supply, the claimed terms cancel
and `totalSupply` equals `nextTokenIdToMint`, for every pair of on-chain
values with `totalMinted <= nextTokenIdToMint`. -/
theorem SignatureDrop.totalSupply_eq_nextTokenIdToMint (c : SignatureDrop.ChainState)
    (_h : c.totalMinted ≤ c.nextTokenIdToMint) :
    SignatureDrop.totalSupply c =
      SignatureDrop.totalClaimedSupply c + SignatureDrop.totalUnclaimedSupply c ∧
    SignatureDrop.totalSupply c = c.nextTokenIdToMint := by
  refine ⟨rfl, ?_⟩
  simp [SignatureDrop.totalSupply, SignatureDrop.totalClaimedSupply,
    SignatureDrop.totalUnclaimedSupply]

/-- Witness for C9 at `totalMinted = 3`, `nextTokenIdToMint = 10`. -/
theorem SignatureDrop.totalSupply_eq_nextTokenIdToMint_witness :
    SignatureDrop.totalSupply ⟨3, 10⟩ =
      SignatureDrop.totalClaimedSupply ⟨3, 10⟩ +
        SignatureDrop.totalUnclaimedSupply ⟨3, 10⟩ ∧
    SignatureDrop.totalSupply ⟨3, 10⟩ = 10 :=
  SignatureDrop.totalSupply_eq_nextTokenIdToMint ⟨3, 10⟩ (by decide)

/-- Counterexample to C10: when `totalSupply` resolves to `2 ^ 53`, a
value a uint256 can reach, `supply.toNumber()` throws outside the
`.catch`, so `Erc1155.get` fails although the metadata fetch succeeded -
get does not only fail when the token's metadata cannot be fetched. -/
theorem Erc1155.get_overflow_counterexample :
    Erc1155.get (.ok (2 ^ 53)) (.ok "ipfs meta") = .error "overflow" ∧
    resultOk (Except.ok "ipfs meta" : Except String String) = true ∧
    resultOk (Erc1155.get (.ok (2 ^ 53)) (.ok "ipfs meta")) = false := by
  refine ⟨?_, rfl, ?_⟩ <;>
    simp [Erc1155.get, toNumber, MAX_SAFE_INTEGER, resultOk]

/-- C10 as amended: `Erc1155.get` never fails because the `totalSupply`
call rejects - a rejection is caught and reported as supply 0 - and every
successful result has the zero address as owner and type `"ERC1155"`
carrying the resolved supply; but besides a failing metadata fetch
(whose error propagates), `get` also fails when the resolved supply
exceeds `Number.MAX_SAFE_INTEGER`, because `supply.toNumber()` throws
outside the `.catch`. -/
theorem Erc1155.get_supply_catch (sr : Except String Nat)
    (mr : Except String String) :
    (∀ e m, sr = .error e → mr = .ok m →
      Erc1155.get sr mr = .ok ⟨zeroAddress, m, "ERC1155", 0⟩) ∧
    (∀ m s, mr = .ok m → sr = .ok s → s ≤ MAX_SAFE_INTEGER →
      Erc1155.get sr mr = .ok ⟨zeroAddress, m, "ERC1155", s⟩) ∧
    (∀ m s, mr = .ok m → sr = .ok s → MAX_SAFE_INTEGER < s →
      Erc1155.get sr mr = .error "overflow") ∧
    (∀ e, mr = .error e → Erc1155.get sr mr = .error e) := by
  refine ⟨?_, ?_, ?_, ?_⟩
  · rintro e m rfl rfl
    simp [Erc1155.get, toNumber, MAX_SAFE_INTEGER]
  · rintro m s rfl rfl hs
    simp [Erc1155.get, toNumber, hs]
  · rintro m s rfl rfl hs
    simp [Erc1155.get, toNumber, Nat.not_le.mpr hs]
  · rintro e rfl
    rfl

/-- Witness for the amended C10: a rejected supply call is reported as
supply 0, and a safe resolved supply is carried through. -/
theorem Erc1155.get_supply_catch_witness :
    Erc1155.get (.error "rpc failure") (.ok "ipfs meta") =
      .ok ⟨zeroAddress, "ipfs meta", "ERC1155", 0⟩ ∧
    Erc1155.get (.ok 42) (.ok "ipfs meta") =
      .ok ⟨zeroAddress, "ipfs meta", "ERC1155", 42⟩ :=
  ⟨(Erc1155.get_supply_catch (.error "rpc failure")
      (.ok "ipfs meta")).1 "rpc failure" "ipfs meta" rfl rfl,
    (Erc1155.get_supply_catch (.ok 42)
      (.ok "ipfs meta")).2.1 "ipfs meta" 42 rfl rfl (by decide)⟩
